import Mathlib

/-!
Verification development for the `lehrer` Open edX image build pipeline
(`src/lehrer/main.py`).

The pipeline is a sequence of container-image assembly stages expressed as
calls into an external container-execution engine.  We embed a container
build state shallowly as the ordered trace of operations applied since the
base image; every engine operation (`with_exec`, `with_mounted_directory`,
`with_env_variable`, `with_user`, ...) appends one `Op` to the trace and
returns the new state, which matches the copy-on-write semantics of the
engine handles.  A Python `ValueError` raised by a stage before any engine
operation is embedded as `Except.error msg`: an error result carries no
container state, so no operation has been applied to the input state.

Opaque engine artifacts (`dagger.Directory`, `dagger.File`, `dagger.Secret`)
are embedded as `Dir`, `Fil` and `Secret`; a directory or file extracted
from a helper container records the trace of that helper container.
-/

namespace Lehrer

/-- Opaque registry secret handle (`dagger.Secret`). -/
structure Secret where
  id : Nat
deriving DecidableEq, Repr

mutual

/-- Opaque directory artifact (`dagger.Directory`): either a caller-supplied
input directory, a directory of the module source, or a directory extracted
from a helper container (recorded as that container trace plus a path). -/
inductive Dir where
  | input : Nat → Dir
  | moduleSource : String → Dir
  | fromContainer : List Op → String → Dir

/-- Opaque file artifact (`dagger.File`): a file extracted from a container
or from a directory. -/
inductive Fil where
  | fromContainer : List Op → String → Fil
  | fromDir : Dir → String → Fil

/-- One state-transforming operation of the container-execution engine,
mirroring the engine methods used by the source. -/
inductive Op where
  | fromImage : String → Op
  | withEnvVariable : String → String → Op
  | withFile : String → Fil → Op
  | withMountedFile : String → Fil → Op
  | withExec : List String → Op
  | withMountedDirectory : String → Dir → Op
  | withDirectory : String → Dir → Op
  | withWorkdir : String → Op
  | withUser : String → Op
  | withRegistryAuth : String → String → Secret → Op

end

/-- A container build state: the ordered trace of engine operations applied
since the base image reference. -/
structure Container where
  ops : List Op

/-- `dag.container().from_(ref)` -/
def fromImage (ref : String) : Container :=
  ⟨[Op.fromImage ref]⟩

def Container.withEnvVariable (c : Container) (name value : String) : Container :=
  ⟨c.ops ++ [Op.withEnvVariable name value]⟩

def Container.withFile (c : Container) (path : String) (f : Fil) : Container :=
  ⟨c.ops ++ [Op.withFile path f]⟩

def Container.withMountedFile (c : Container) (path : String) (f : Fil) : Container :=
  ⟨c.ops ++ [Op.withMountedFile path f]⟩

def Container.withExec (c : Container) (args : List String) : Container :=
  ⟨c.ops ++ [Op.withExec args]⟩

def Container.withMountedDirectory (c : Container) (path : String) (d : Dir) : Container :=
  ⟨c.ops ++ [Op.withMountedDirectory path d]⟩

def Container.withDirectory (c : Container) (path : String) (d : Dir) : Container :=
  ⟨c.ops ++ [Op.withDirectory path d]⟩

def Container.withWorkdir (c : Container) (path : String) : Container :=
  ⟨c.ops ++ [Op.withWorkdir path]⟩

def Container.withUser (c : Container) (user : String) : Container :=
  ⟨c.ops ++ [Op.withUser user]⟩

def Container.withRegistryAuth (c : Container) (address username : String) (secret : Secret) :
    Container :=
  ⟨c.ops ++ [Op.withRegistryAuth address username secret]⟩

/-- Python truthiness of an optional string argument: `None` and the empty
string are falsy, any other string is truthy. -/
def truthyStr : Option String → Bool
  | none => false
  | some s => !(s == "")

/-- The apt package list of `apt_base`. -/
def aptPackages : List String :=
  ["curl", "default-libmysqlclient-dev", "gettext", "gfortran", "git", "graphviz",
   "libffi-dev", "libfreetype-dev", "libgeos-dev", "libgraphviz-dev", "libjpeg-dev",
   "liblapack-dev", "libpng-dev", "libsqlite3-dev", "libxml2-dev", "libxmlsec1-dev",
   "libxmlsec1-openssl", "lynx", "pkg-config", "rdfind"]

/-- The uv binary taken from the official uv image (`apt_base`). -/
def uv_binary : Fil :=
  Fil.fromContainer [Op.fromImage "ghcr.io/astral-sh/uv:latest"] "/uv"

/-- `apt_base`: base Python container with system dependencies.  The Python
default for `python_version` is "3.11". -/
def apt_base (python_version : String) : Container :=
  fromImage ("python:" ++ python_version ++ "-bookworm")
  |>.withEnvVariable "DEBIAN_FRONTEND" "noninteractive"
  |>.withFile "/usr/local/bin/uv" uv_binary
  |>.withEnvVariable "UV_NO_MANAGED_PYTHON" "1"
  |>.withEnvVariable "UV_PYTHON_DOWNLOADS" "never"
  |>.withEnvVariable "UV_COMPILE_BYTECODE" "1"
  |>.withEnvVariable "UV_LINK_MODE" "copy"
  |>.withEnvVariable "UV_PROJECT_ENVIRONMENT" "/openedx/venv"
  |>.withEnvVariable "VIRTUAL_ENV" "/openedx/venv"
  |>.withEnvVariable "PATH" "/openedx/venv/bin:/usr/local/bin:/usr/bin:/bin"
  |>.withExec ["apt", "update"]
  |>.withExec (["apt", "install", "-y", "--no-install-recommends"] ++ aptPackages)
  |>.withExec ["apt", "autoremove", "-y"]
  |>.withExec ["apt", "clean"]
  |>.withExec ["rm", "-rf", "/var/lib/apt/lists/*"]

/-- `locales`: download and extract openedx-i18n locale files to
`/openedx/locale`.  The Python default for `locale_version` is "master". -/
def locales (container : Container) (locale_version : String) : Container :=
  container
  |>.withExec ["git", "clone", "--depth", "1", "--branch", locale_version,
    "https://github.com/openedx-unsupported/openedx-i18n.git", "/tmp/openedx-i18n"]
  |>.withExec ["mkdir", "-p", "/openedx/locale/contrib"]
  |>.withExec ["sh", "-c", "mv /tmp/openedx-i18n/edx-platform/locale /openedx/locale/contrib || true"]
  |>.withExec ["rm", "-rf", "/tmp/openedx-i18n"]

/-- `get_code`: get edx-platform source code from a local directory or Git.
Raising `ValueError` is embedded as `Except.error`; the error result carries
no container state. -/
def get_code (container : Container) (source : Option Dir)
    (edx_platform_git_repo edx_platform_git_branch : Option String) :
    Except String Container :=
  match source with
  | some s =>
    .ok ((container.withMountedDirectory "/openedx/edx-platform" s).withExec
      ["uv", "venv", "/openedx/venv"])
  | none =>
    if truthyStr edx_platform_git_repo && truthyStr edx_platform_git_branch then
      .ok ((container.withExec ["git", "clone", "--depth", "1", "--branch",
        edx_platform_git_branch.getD "", edx_platform_git_repo.getD "",
        "/openedx/edx-platform"]).withExec ["uv", "venv", "/openedx/venv"])
    else
      .error "Must provide either source or both edx_platform_git_repo and edx_platform_git_branch"

/-- `themes`: get theme files from a local directory or Git into
`/openedx/themes/` followed by the deployment name. -/
def themes (container : Container) (deployment_name : String) (theme_source : Option Dir)
    (theme_git_repo theme_git_branch : Option String) : Except String Container :=
  let theme_path := "/openedx/themes/" ++ deployment_name
  match theme_source with
  | some s => .ok (container.withMountedDirectory theme_path s)
  | none =>
    if !(truthyStr theme_git_repo) || !(truthyStr theme_git_branch) then
      .error "Must provide either theme_source or both theme_git_repo and theme_git_branch"
    else
      .ok (container.withExec ["git", "clone", "--depth", "1", "--branch",
        theme_git_branch.getD "", theme_git_repo.getD "", theme_path])

/-- `install_deps`: install Python and Node.js dependencies using uv.  The
Python default for `node_version` is "20.18.0". -/
def install_deps (container : Container) (deployment_name release_name : String)
    (pip_package_lists pip_package_overrides : Dir) (node_version : String) : Container :=
  let container :=
    container
    |>.withMountedDirectory "/root/pip_package_lists" pip_package_lists
    |>.withMountedDirectory "/root/pip_package_overrides" pip_package_overrides
    |>.withExec ["sh", "-c",
      "cp /openedx/edx-platform/requirements/edx/base.txt /root/pip_package_lists/edx_base.txt"]
    |>.withExec ["sh", "-c",
      "cp /openedx/edx-platform/requirements/edx/assets.txt /root/pip_package_lists/edx_assets.txt"]
    |>.withExec ["uv", "pip", "install",
      "-r", "/root/pip_package_lists/edx_base.txt",
      "-r", "/root/pip_package_lists/edx_assets.txt",
      "-r", "/root/pip_package_lists/" ++ release_name ++ "/" ++ deployment_name ++ ".txt"]
  let container :=
    if deployment_name == "mitxonline" then
      container.withExec ["uv", "pip", "uninstall", "edx-name-affirmation"]
    else container
  let container :=
    container
    |>.withExec ["pip", "uninstall", "--yes", "lxml", "xmlsec"]
    |>.withExec ["pip", "install", "--no-cache-dir",
      "-r", "/root/pip_package_overrides/" ++ release_name ++ "/" ++ deployment_name ++ ".txt"]
  container
  |>.withWorkdir "/openedx/edx-platform"
  |>.withEnvVariable "NPM_REGISTRY" "https://registry.npmjs.org/"
  |>.withExec ["sh", "-c", "nodeenv /openedx/nodeenv --node=" ++ node_version ++ " --prebuilt"]
  |>.withEnvVariable "PATH" "/openedx/venv/bin:/openedx/nodeenv/bin:/usr/local/bin:/usr/bin:/bin"
  |>.withExec ["sh", "-c", "npm clean-install -s --registry=https://registry.npmjs.org/"]
  |>.withExec ["sh", "-c",
    "npm install \x27git+https://git@github.com/verificient/edx-proctoring-proctortrack.git#f0fa9edbd16aa5af5a41ac309d2609e529ea8732\x27"]

/-- `dockerize`: the dockerize binary extracted from its upstream image. -/
def dockerize : Fil :=
  Fil.fromContainer
    [Op.fromImage
      "docker.io/powerman/dockerize@sha256:f3ecfd5ac0f74eed3990782309ac6bf8b700f4eca0ea9e9ef507b11742c19cc6"]
    "/usr/local/bin/dockerize"

/-- `tutor_utils`: utility scripts extracted from a Tutor clone container.
The Python default for `tutor_version` is "v19.0.0". -/
def tutor_utils (tutor_version : String) : Dir :=
  Dir.fromContainer
    (fromImage "debian:bookworm-slim"
     |>.withExec ["apt-get", "update"]
     |>.withExec ["apt-get", "install", "-y", "git"]
     |>.withExec ["git", "clone", "--depth", "1", "--branch", tutor_version,
       "https://github.com/overhangio/tutor.git", "/openedx/tutor"]).ops
    "/openedx/tutor/tutor/templates/build/openedx/bin"

/-- `collected`: assemble all artifacts, create the unprivileged app user and
switch to it.  The Python defaults are `app_user_id = 1000` and
`include_locales = True`; `app_user_id = 0` raises `ValueError` before any
engine operation, embedded as `Except.error` carrying no container state. -/
def collected (container : Container) (deployment_name : String) (dockerize_bin : Fil)
    (tutor_bin : Dir) (custom_settings : Dir) (app_user_id : Nat) (include_locales : Bool) :
    Except String Container :=
  if app_user_id == 0 then
    .error "app user may not be root"
  else
    let container :=
      container
      |>.withEnvVariable "PATH"
        "/usr/sbin:/openedx/venv/bin:/openedx/nodeenv/bin:/usr/local/bin:/usr/bin:/bin"
      |>.withDirectory "/openedx/bin" tutor_bin
      |>.withExec ["chmod", "-R", "a+x", "/openedx/bin"]
      |>.withExec ["useradd", "--home-dir", "/openedx", "--create-home",
        "--shell", "/bin/bash", "--uid", toString app_user_id, "app"]
      |>.withExec ["chown", "-R", toString app_user_id ++ ":" ++ toString app_user_id, "/openedx"]
      |>.withUser (toString app_user_id)
      |>.withMountedFile "/usr/local/bin/dockerize" dockerize_bin
    let container :=
      container.withEnvVariable "PATH"
        "/openedx/venv/bin:/openedx/bin:/openedx/edx-platform/node_modules/.bin:/openedx/nodeenv/bin:/usr/local/bin:/usr/bin:/bin"
    let container :=
      container
      |>.withWorkdir "/openedx/edx-platform"
      |>.withExec ["uv", "pip", "install", "-e", "."]
      |>.withExec ["mkdir", "-p", "/openedx/config", "./lms/envs/mitol", "./cms/envs/mitol"]
    let container :=
      container
      |>.withMountedDirectory "/tmp/custom_settings" custom_settings
      |>.withExec ["cp", "/tmp/custom_settings/lms.env.yml", "/openedx/config/lms.env.yml"]
      |>.withExec ["cp", "/tmp/custom_settings/cms.env.yml", "/openedx/config/cms.env.yml"]
      |>.withExec ["cp", "/tmp/custom_settings/lms/assets.py",
        "/openedx/edx-platform/lms/envs/mitol/assets.py"]
      |>.withExec ["cp", "/tmp/custom_settings/lms/i18n.py",
        "/openedx/edx-platform/lms/envs/mitol/i18n.py"]
      |>.withExec ["cp", "/tmp/custom_settings/cms/assets.py",
        "/openedx/edx-platform/cms/envs/mitol/assets.py"]
      |>.withExec ["cp", "/tmp/custom_settings/cms/i18n.py",
        "/openedx/edx-platform/cms/envs/mitol/i18n.py"]
      |>.withExec ["cp", "/tmp/custom_settings/set_waffle_flags.py",
        "/openedx/edx-platform/set_waffle_flags.py"]
      |>.withExec ["cp", "/tmp/custom_settings/process_scheduled_emails.py",
        "/openedx/edx-platform/process_scheduled_emails.py"]
      |>.withExec ["cp", "/tmp/custom_settings/saml_pull.py",
        "/openedx/edx-platform/saml_pull.py"]
    let container :=
      container
      |>.withEnvVariable "REVISION_CFG" "/openedx/config/revisions.yml"
      |>.withEnvVariable "LMS_CFG" "/openedx/config/lms.env.yml"
      |>.withEnvVariable "CMS_CFG" "/openedx/config/cms.env.yml"
      |>.withEnvVariable "NO_PYTHON_UNINSTALL" "1"
      |>.withEnvVariable "NO_PREREQ_INSTALL" "0"
    .ok container

/-- `fetch_translations`: fetch and compile translations using atlas.  The
Python defaults are repository "mitodl/mitxonline-translations" and branch
"main".  Best-effort commands are wrapped in a shell with a trailing
or-true so that a non-zero exit of the inner command is swallowed. -/
def fetch_translations (container : Container)
    (translations_repository translations_branch : String) : Container :=
  let atlas_options :=
    "--repository " ++ translations_repository ++ " --revision " ++ translations_branch
  let container :=
    container
    |>.withEnvVariable "DJANGO_SETTINGS_MODULE" "lms.envs.mitol.i18n"
    |>.withWorkdir "/openedx/edx-platform"
  let container :=
    container
    |>.withExec ["sh", "-c",
      "python manage.py lms pull_plugin_translations " ++ atlas_options ++ " || true"]
    |>.withExec ["sh", "-c", "python manage.py lms compile_plugin_translations || true"]
    |>.withExec ["sh", "-c",
      "python manage.py lms pull_xblock_translations " ++ atlas_options ++ " || true"]
    |>.withExec ["sh", "-c", "python manage.py lms compile_xblock_translations || true"]
    |>.withExec ["sh", "-c",
      "atlas pull " ++ atlas_options ++ " translations/edx-platform/conf/locale:conf/locale || true"]
    |>.withExec ["python", "manage.py", "lms", "compilemessages"]
    |>.withExec ["python", "manage.py", "lms", "compilejsi18n"]
  container
  |>.withEnvVariable "DJANGO_SETTINGS_MODULE" "cms.envs.mitol.i18n"
  |>.withExec ["sh", "-c", "python manage.py cms compile_xblock_translations || true"]
  |>.withExec ["sh", "-c",
    "atlas pull " ++ atlas_options ++ " translations/studio-frontend/src/i18n/messages:conf/plugins-locale/studio-frontend || true"]
  |>.withExec ["python", "manage.py", "cms", "compilejsi18n"]

/-- `build_static_assets`: build and collect static assets. -/
def build_static_assets (container : Container) (deployment_name : String) : Container :=
  let container :=
    container
    |>.withEnvVariable "STATIC_ROOT_LMS" "/openedx/staticfiles/"
    |>.withEnvVariable "NODE_ENV" "prod"
    |>.withEnvVariable "JS_ENV_EXTRA_CONFIG"
      "\x7b\"PROCTORTRACK_CDN_URL\":\"\\\"\\\"\",\"PROCTORTRACK_CONFIG_KEY\":\"\\\"\\\"\"\x7d"
  container
  |>.withExec ["mkdir", "-p", "/openedx/staticfiles/"]
  |>.withExec ["npm", "run", "postinstall"]
  |>.withExec ["npm", "run", "compile-sass", "--",
    "--theme-dir", "/openedx/themes/", "--theme", deployment_name]
  |>.withExec ["python", "manage.py", "lms", "collectstatic", "--noinput", "--settings=mitol.assets"]
  |>.withExec ["python", "manage.py", "cms", "collectstatic", "--noinput", "--settings=mitol.assets"]
  |>.withExec ["npm", "run", "webpack"]
  |>.withExec ["python", "manage.py", "lms", "collectstatic", "--noinput", "--settings=mitol.assets"]
  |>.withExec ["python", "manage.py", "cms", "collectstatic", "--noinput", "--settings=mitol.assets"]
  |>.withExec ["rdfind", "-makesymlinks", "true", "-followsymlinks", "true", "/openedx/staticfiles/"]
  |>.withExec ["mkdir", "-p", "/openedx/data/export_course_repos"]
  |>.withExec ["mkdir", "-p", "/openedx/data/var/log/edx"]

/-- `docker_image`: finalize the image for deployment.  The two name
parameters are accepted but unused by the body, as in the source. -/
def docker_image (container : Container) (deployment_name release_name : String) : Container :=
  container
  |>.withEnvVariable "DJANGO_SETTINGS_MODULE" "invalid"
  |>.withExec ["python", "-m", "compileall", "-q", "/openedx/edx-platform", "/openedx/venv"]
  |>.withExec ["mkdir", "/openedx/.ssh"]
  |>.withExec ["chown", "app:app", "/openedx/.ssh"]
  |>.withExec ["chmod", "0700", "/openedx/.ssh"]
  |>.withExec ["sh", "-c",
    "ssh-keyscan \x27github.com\x27 \x27github.mit.edu\x27 >> /openedx/.ssh/known_hosts"]
  |>.withExec ["chmod", "0600", "/openedx/.ssh/known_hosts"]
  |>.withExec ["mkdir", "-p", "/openedx/data/export_course_repos"]
  |>.withExec ["git", "config", "--global", "--add", "safe.directory", "*"]

/-- Python-version resolution at the top of `build_platform`: default to
"3.12" for the master release and "3.11" otherwise. -/
def resolvePythonVersion (python_version : Option String) (release_name : String) : String :=
  match python_version with
  | some v => v
  | none => if release_name == "master" then "3.12" else "3.11"

/-- `build_platform`: chain all build stages.  Python defaults:
`platform_repo = "https://github.com/openedx/edx-platform"`,
`platform_branch = "master"`, `node_version = "20.18.0"`,
`locale_version = "master"`,
`translations_repo = "mitodl/mitxonline-translations"`,
`translations_branch = "main"`, `include_locales = True`, and the optional
directory and string arguments default to `None`.  The call to `collected`
leaves `app_user_id` at its default of 1000, and `tutor_utils` at its
default of "v19.0.0". -/
def build_platform (deployment_name release_name : String)
    (pip_package_lists pip_package_overrides custom_settings : Dir)
    (source : Option Dir) (platform_repo platform_branch : String)
    (theme_source : Option Dir) (theme_repo theme_branch : Option String)
    (python_version : Option String) (node_version locale_version : String)
    (translations_repo translations_branch : String) (include_locales : Bool) :
    Except String Container := do
  let python_version := resolvePythonVersion python_version release_name
  let container := apt_base python_version
  let container := if include_locales then locales container locale_version else container
  let container ← get_code container source (some platform_repo) (some platform_branch)
  let container := install_deps container deployment_name release_name
    pip_package_lists pip_package_overrides node_version
  let container ←
    if theme_source.isSome || truthyStr theme_repo then
      themes container deployment_name theme_source theme_repo theme_branch
    else
      Except.ok container
  let tutor_bin := tutor_utils "v19.0.0"
  let dockerize_bin := dockerize
  let container ← collected container deployment_name dockerize_bin tutor_bin
    custom_settings 1000 include_locales
  let container := fetch_translations container translations_repo translations_branch
  let container := build_static_assets container deployment_name
  let container := docker_image container deployment_name release_name
  return container

/-- Modelled from the spec: the publish-to-registry operation of the external
execution collaborator is not part of the repository source; per the spec it
pushes the state and returns the fully qualified reference string it was
given. -/
def publish (container : Container) (ref : String) : String :=
  ref

/-- `publish_platform`: publish the image to a registry.  The Python function
returns only the reference string; the embedding returns the pair of the
reference string and the state handed to the publish operation, so that
credential registration on that state is observable.  The Python default for
`tag` is "latest". -/
def publish_platform (container : Container) (registry repository tag : String)
    (username : Option String) (password : Option Secret) : String × Container :=
  let image_ref := registry ++ "/" ++ repository ++ ":" ++ tag
  let container :=
    match username, password with
    | some u, some p => if u == "" then container else container.withRegistryAuth registry u p
    | _, _ => container
  (publish container image_ref, container)

/-- The last set-user operation of a trace, i.e. the active user identity of
the state (`none` while still the implicit root identity). -/
def Container.activeUser (c : Container) : Option String :=
  c.ops.foldl (fun acc op => match op with | Op.withUser u => some u | _ => acc) none

/-- Whether an operation is a set-user operation. -/
def isSetUser : Op → Bool
  | Op.withUser _ => true
  | _ => false

/-- Whether an operation is a remote git-clone fetch. -/
def isGitClone : Op → Bool
  | Op.withExec ("git" :: "clone" :: _) => true
  | _ => false

/-- The command arguments of an exec operation. -/
def execArgs : Op → Option (List String)
  | Op.withExec args => some args
  | _ => none

/-- The operations a function appended to the input state `c` to produce the
output state. -/
def newOps (c after : Container) : List Op :=
  after.ops.drop c.ops.length

/-- Whether an exec operation is a best-effort command: a shell command whose
command string ends in an or-true, so the shell swallows a non-zero exit of
the inner command and exits zero. -/
def suppressedExec (args : List String) : Bool :=
  match args with
  | ["sh", "-c", s] => List.isSuffixOf " || true".data s.data
  | _ => false

/-- Whether one operation executes successfully under an engine in which the
inner commands selected by `engineFails` exit non-zero: non-exec operations
always succeed, a best-effort exec succeeds regardless, and any other exec
succeeds iff the engine does not fail it. -/
def opRuns (engineFails : List String → Bool) : Op → Bool
  | Op.withExec args => suppressedExec args || !engineFails args
  | _ => true

/-- Whether the whole trace of a state executes successfully under the given
engine failure behaviour, i.e. the pipeline that produced the state runs to
completion and yields this state as terminal state. -/
def runsOk (engineFails : List String → Bool) (c : Container) : Bool :=
  c.ops.all (opRuns engineFails)

/-- The filesystem paths a single operation creates content at: mount and
copy targets of directory and file operations, directories made by a mkdir
exec, and clone targets of a git-clone exec. -/
def execCreatedPaths (args : List String) : List String :=
  match args with
  | "mkdir" :: "-p" :: rest => rest
  | "mkdir" :: rest => rest
  | "git" :: "clone" :: rest => rest.getLast?.toList
  | _ => []

/-- Created paths of one operation. -/
def opCreatedPaths : Op → List String
  | Op.withMountedDirectory p _ => [p]
  | Op.withDirectory p _ => [p]
  | Op.withFile p _ => [p]
  | Op.withMountedFile p _ => [p]
  | Op.withExec args => execCreatedPaths args
  | _ => []

/-- All paths at which the trace of a state creates content. -/
def createdPaths (c : Container) : List String :=
  (c.ops.map opCreatedPaths).flatten

/-- String prefix test on the underlying character lists. -/
def strIsPrefixOf (p q : String) : Bool :=
  List.isPrefixOf p.data q.data

/-- The state lacks the target path `p`: no operation of its trace creates
content at `p` or below `p`. -/
def lacksPathUnder (c : Container) (p : String) : Bool :=
  (createdPaths c).all (fun q => !strIsPrefixOf p q)

/-- A stage transformation: current state in, next state or configuration
error out. -/
def StageFn : Type :=
  Container → Except String Container

/-- Modelled from the spec: the stage composition engine threads the current
state through an ordered list of stage functions, replacing the current
state with each stage output. -/
def runStages (stages : List StageFn) (c : Container) : Except String Container :=
  stages.foldl (fun acc stage => acc.bind stage) (Except.ok c)

/-- Modelled from the spec: the full pipeline as the spec states it, stages
in the fixed order base-image, locale-fetch (optional), source-fetch,
dependency-install, theme-fetch (optional), utility-fetch,
artifact-collection, translation-fetch, asset-build, finalize, each stage
consuming the previous stage output state.  The utility-fetch stage builds
the side artifacts (tutor utilities and the dockerize binary) consumed by
artifact-collection and does not transform the threaded state. -/
def spec_pipeline (deployment_name release_name : String)
    (pip_package_lists pip_package_overrides custom_settings : Dir)
    (source : Option Dir) (platform_repo platform_branch : String)
    (theme_source : Option Dir) (theme_repo theme_branch : Option String)
    (python_version : Option String) (node_version locale_version : String)
    (translations_repo translations_branch : String) (include_locales : Bool) :
    Except String Container :=
  runStages
    [fun c => Except.ok (if include_locales then locales c locale_version else c),
     fun c => get_code c source (some platform_repo) (some platform_branch),
     fun c => Except.ok (install_deps c deployment_name release_name
       pip_package_lists pip_package_overrides node_version),
     fun c =>
       if theme_source.isSome || truthyStr theme_repo then
         themes c deployment_name theme_source theme_repo theme_branch
       else Except.ok c,
     fun c => Except.ok c,
     fun c => collected c deployment_name dockerize (tutor_utils "v19.0.0")
       custom_settings 1000 include_locales,
     fun c => Except.ok (fetch_translations c translations_repo translations_branch),
     fun c => Except.ok (build_static_assets c deployment_name),
     fun c => Except.ok (docker_image c deployment_name release_name)]
    (apt_base (resolvePythonVersion python_version release_name))

/-! ### Helper lemmas -/

theorem activeUser_withEnvVariable (c : Container) (n v : String) :
    (c.withEnvVariable n v).activeUser = c.activeUser := by
  simp [Container.activeUser, Container.withEnvVariable, List.foldl_append]

theorem activeUser_withFile (c : Container) (p : String) (f : Fil) :
    (c.withFile p f).activeUser = c.activeUser := by
  simp [Container.activeUser, Container.withFile, List.foldl_append]

theorem activeUser_withMountedFile (c : Container) (p : String) (f : Fil) :
    (c.withMountedFile p f).activeUser = c.activeUser := by
  simp [Container.activeUser, Container.withMountedFile, List.foldl_append]

theorem activeUser_withExec (c : Container) (args : List String) :
    (c.withExec args).activeUser = c.activeUser := by
  simp [Container.activeUser, Container.withExec, List.foldl_append]

theorem activeUser_withMountedDirectory (c : Container) (p : String) (d : Dir) :
    (c.withMountedDirectory p d).activeUser = c.activeUser := by
  simp [Container.activeUser, Container.withMountedDirectory, List.foldl_append]

theorem activeUser_withDirectory (c : Container) (p : String) (d : Dir) :
    (c.withDirectory p d).activeUser = c.activeUser := by
  simp [Container.activeUser, Container.withDirectory, List.foldl_append]

theorem activeUser_withWorkdir (c : Container) (p : String) :
    (c.withWorkdir p).activeUser = c.activeUser := by
  simp [Container.activeUser, Container.withWorkdir, List.foldl_append]

theorem activeUser_withUser (c : Container) (u : String) :
    (c.withUser u).activeUser = some u := by
  simp [Container.activeUser, Container.withUser, List.foldl_append]

theorem activeUser_fetch_translations (c : Container) (r b : String) :
    (fetch_translations c r b).activeUser = c.activeUser := by
  simp [fetch_translations, activeUser_withEnvVariable, activeUser_withWorkdir,
    activeUser_withExec]

theorem activeUser_build_static_assets (c : Container) (dn : String) :
    (build_static_assets c dn).activeUser = c.activeUser := by
  simp [build_static_assets, activeUser_withEnvVariable, activeUser_withExec]

theorem activeUser_docker_image (c : Container) (dn rn : String) :
    (docker_image c dn rn).activeUser = c.activeUser := by
  simp [docker_image, activeUser_withEnvVariable, activeUser_withExec]

theorem collected_ok_activeUser (c : Container) (dn : String) (db : Fil) (tb cs : Dir)
    (uid : Nat) (il : Bool) (res : Container)
    (h : collected c dn db tb cs uid il = .ok res) :
    res.activeUser = some (toString uid) := by
  unfold collected at h
  split at h
  · exact absurd h (by simp)
  · simp only [Except.ok.injEq] at h
    subst h
    simp [activeUser_withEnvVariable, activeUser_withExec, activeUser_withWorkdir,
      activeUser_withMountedDirectory, activeUser_withDirectory, activeUser_withMountedFile,
      activeUser_withUser]

theorem exceptBind_ok {e : Except String Container} {f : Container → Except String Container}
    {res : Container} :
    e.bind f = .ok res ↔ ∃ c, e = .ok c ∧ f c = .ok res := by
  cases e <;> simp [Except.bind]

theorem build_platform_unfold (deployment_name release_name : String)
    (pip_package_lists pip_package_overrides custom_settings : Dir)
    (source : Option Dir) (platform_repo platform_branch : String)
    (theme_source : Option Dir) (theme_repo theme_branch : Option String)
    (python_version : Option String) (node_version locale_version : String)
    (translations_repo translations_branch : String) (include_locales : Bool) :
    build_platform deployment_name release_name pip_package_lists pip_package_overrides
      custom_settings source platform_repo platform_branch theme_source theme_repo
      theme_branch python_version node_version locale_version translations_repo
      translations_branch include_locales =
    (get_code
        (if include_locales then
          locales (apt_base (resolvePythonVersion python_version release_name)) locale_version
        else apt_base (resolvePythonVersion python_version release_name))
        source (some platform_repo) (some platform_branch)).bind
      (fun c =>
        ((if theme_source.isSome || truthyStr theme_repo then
            themes (install_deps c deployment_name release_name pip_package_lists
              pip_package_overrides node_version) deployment_name theme_source theme_repo
              theme_branch
          else
            Except.ok (install_deps c deployment_name release_name pip_package_lists
              pip_package_overrides node_version)).bind
          (fun c2 =>
            (collected c2 deployment_name dockerize (tutor_utils "v19.0.0") custom_settings
                1000 include_locales).bind
              (fun c3 =>
                Except.ok (docker_image
                  (build_static_assets
                    (fetch_translations c3 translations_repo translations_branch)
                    deployment_name)
                  deployment_name release_name))))) := by
  unfold build_platform
  cases hts : theme_source.isSome || truthyStr theme_repo <;>
    simp only [hts, Bool.false_eq_true, if_false, if_true] <;> rfl

theorem okBind {ε α β : Type} (a : α) (f : α → Except ε β) :
    (Except.ok a : Except ε α).bind f = f a := rfl

theorem errBind {ε α β : Type} (e : ε) (f : α → Except ε β) :
    (Except.error e : Except ε α).bind f = Except.error e := rfl

theorem newOps_mk (c : Container) (l : List Op) : newOps c ⟨c.ops ++ l⟩ = l := by
  simp [newOps]

theorem get_code_error_msg (c : Container) (source : Option Dir) (repo branch : Option String)
    (e : String) (h : get_code c source repo branch = .error e) :
    e = "Must provide either source or both edx_platform_git_repo and edx_platform_git_branch" := by
  unfold get_code at h
  split at h
  · exact absurd h (by simp)
  · split at h
    · exact absurd h (by simp)
    · simp only [Except.error.injEq] at h
      exact h.symm

theorem themes_error_msg (c : Container) (dn : String) (source : Option Dir)
    (repo branch : Option String) (e : String)
    (h : themes c dn source repo branch = .error e) :
    e = "Must provide either theme_source or both theme_git_repo and theme_git_branch" := by
  unfold themes at h
  split at h
  · exact absurd h (by simp)
  · split at h
    · simp only [Except.error.injEq] at h
      exact h.symm
    · exact absurd h (by simp)

theorem build_platform_ok_activeUser (dn rn : String) (ppl ppo cs : Dir) (src : Option Dir)
    (pr pb : String) (ts : Option Dir) (trp tbr pv : Option String) (nv lv trr trb : String)
    (il : Bool) (res : Container)
    (h : build_platform dn rn ppl ppo cs src pr pb ts trp tbr pv nv lv trr trb il = .ok res) :
    res.activeUser = some "1000" := by
  rw [build_platform_unfold] at h
  rcases exceptBind_ok.mp h with ⟨c1, _, h⟩
  rcases exceptBind_ok.mp h with ⟨c2, _, h⟩
  rcases exceptBind_ok.mp h with ⟨c3, hcol, h⟩
  simp only [Except.ok.injEq] at h
  subst h
  rw [activeUser_docker_image, activeUser_build_static_assets, activeUser_fetch_translations]
  exact collected_ok_activeUser _ _ _ _ _ _ _ _ hcol

theorem build_platform_ne_root_error (dn rn : String) (ppl ppo cs : Dir) (src : Option Dir)
    (pr pb : String) (ts : Option Dir) (trp tbr pv : Option String) (nv lv trr trb : String)
    (il : Bool) :
    build_platform dn rn ppl ppo cs src pr pb ts trp tbr pv nv lv trr trb il ≠
      .error "app user may not be root" := by
  intro h
  rw [build_platform_unfold] at h
  cases hg : get_code
      (if il then locales (apt_base (resolvePythonVersion pv rn)) lv
       else apt_base (resolvePythonVersion pv rn)) src (some pr) (some pb) with
  | error e =>
    rw [hg, errBind] at h
    simp only [Except.error.injEq] at h
    have := get_code_error_msg _ _ _ _ _ hg
    subst this
    exact absurd h (by decide)
  | ok c1 =>
    rw [hg, okBind] at h
    by_cases hts : (ts.isSome || truthyStr trp) = true
    · rw [if_pos hts] at h
      cases hth : themes (install_deps c1 dn rn ppl ppo nv) dn ts trp tbr with
      | error e =>
        rw [hth, errBind] at h
        simp only [Except.error.injEq] at h
        have := themes_error_msg _ _ _ _ _ _ hth
        subst this
        exact absurd h (by decide)
      | ok c2 =>
        rw [hth, okBind] at h
        rw [show collected c2 dn dockerize (tutor_utils "v19.0.0") cs 1000 il =
          .ok ((collected c2 dn dockerize (tutor_utils "v19.0.0") cs 1000 il).toOption.getD
            ⟨[]⟩) from rfl, okBind] at h
        exact absurd h (by simp)
    · rw [if_neg hts, okBind] at h
      rw [show collected (install_deps c1 dn rn ppl ppo nv) dn dockerize (tutor_utils "v19.0.0")
            cs 1000 il =
          .ok ((collected (install_deps c1 dn rn ppl ppo nv) dn dockerize (tutor_utils "v19.0.0")
            cs 1000 il).toOption.getD ⟨[]⟩) from rfl, okBind] at h
      exact absurd h (by simp)

theorem ecp_apt (r : List String) : execCreatedPaths ("apt" :: r) = [] := rfl

theorem ecp_apt_get (r : List String) : execCreatedPaths ("apt-get" :: r) = [] := rfl

theorem ecp_sh (r : List String) : execCreatedPaths ("sh" :: r) = [] := rfl

theorem ecp_uv (r : List String) : execCreatedPaths ("uv" :: r) = [] := rfl

theorem ecp_pip (r : List String) : execCreatedPaths ("pip" :: r) = [] := rfl

theorem ecp_npm (r : List String) : execCreatedPaths ("npm" :: r) = [] := rfl

theorem ecp_python (r : List String) : execCreatedPaths ("python" :: r) = [] := rfl

theorem ecp_chmod (r : List String) : execCreatedPaths ("chmod" :: r) = [] := rfl

theorem ecp_chown (r : List String) : execCreatedPaths ("chown" :: r) = [] := rfl

theorem ecp_useradd (r : List String) : execCreatedPaths ("useradd" :: r) = [] := rfl

theorem ecp_cp (r : List String) : execCreatedPaths ("cp" :: r) = [] := rfl

theorem ecp_rm (r : List String) : execCreatedPaths ("rm" :: r) = [] := rfl

theorem ecp_rdfind (r : List String) : execCreatedPaths ("rdfind" :: r) = [] := rfl

theorem ecp_git_config (r : List String) : execCreatedPaths ("git" :: "config" :: r) = [] := rfl

theorem ecp_git_clone (r : List String) :
    execCreatedPaths ("git" :: "clone" :: r) = r.getLast?.toList := rfl

theorem ecp_mkdir_p (r : List String) : execCreatedPaths ("mkdir" :: "-p" :: r) = r := rfl

theorem ecp_mkdir_ssh : execCreatedPaths ["mkdir", "/openedx/.ssh"] = ["/openedx/.ssh"] := rfl

theorem getLast?_cons_cons (a b : String) (l : List String) :
    (a :: b :: l).getLast? = (b :: l).getLast? := rfl

theorem getLast?_singleton (a : String) : [a].getLast? = some a := rfl

theorem createdPaths_append_op (c : Container) (op : Op) :
    createdPaths ⟨c.ops ++ [op]⟩ = createdPaths c ++ opCreatedPaths op := by
  simp [createdPaths]

theorem createdPaths_withExec (c : Container) (a : List String) :
    createdPaths (c.withExec a) = createdPaths c ++ execCreatedPaths a := by
  simp [Container.withExec, createdPaths_append_op, opCreatedPaths]

theorem createdPaths_withEnvVariable (c : Container) (n v : String) :
    createdPaths (c.withEnvVariable n v) = createdPaths c := by
  simp [Container.withEnvVariable, createdPaths_append_op, opCreatedPaths]

theorem createdPaths_withWorkdir (c : Container) (p : String) :
    createdPaths (c.withWorkdir p) = createdPaths c := by
  simp [Container.withWorkdir, createdPaths_append_op, opCreatedPaths]

theorem createdPaths_withUser (c : Container) (u : String) :
    createdPaths (c.withUser u) = createdPaths c := by
  simp [Container.withUser, createdPaths_append_op, opCreatedPaths]

theorem createdPaths_withFile (c : Container) (p : String) (f : Fil) :
    createdPaths (c.withFile p f) = createdPaths c ++ [p] := by
  simp [Container.withFile, createdPaths_append_op, opCreatedPaths]

theorem createdPaths_withMountedFile (c : Container) (p : String) (f : Fil) :
    createdPaths (c.withMountedFile p f) = createdPaths c ++ [p] := by
  simp [Container.withMountedFile, createdPaths_append_op, opCreatedPaths]

theorem createdPaths_withMountedDirectory (c : Container) (p : String) (d : Dir) :
    createdPaths (c.withMountedDirectory p d) = createdPaths c ++ [p] := by
  simp [Container.withMountedDirectory, createdPaths_append_op, opCreatedPaths]

theorem createdPaths_withDirectory (c : Container) (p : String) (d : Dir) :
    createdPaths (c.withDirectory p d) = createdPaths c ++ [p] := by
  simp [Container.withDirectory, createdPaths_append_op, opCreatedPaths]

theorem createdPaths_fromImage (s : String) : createdPaths (fromImage s) = [] := rfl

theorem strIsPrefixOf_of_append (a b q : String) (h : strIsPrefixOf (a ++ b) q = true) :
    strIsPrefixOf a q = true := by
  simp only [strIsPrefixOf, List.isPrefixOf_iff_prefix, String.data_append] at h ⊢
  exact (List.prefix_append a.data b.data).trans h

theorem all_not_prefix_append (p s : String) (l : List String)
    (h : l.all (fun q => !strIsPrefixOf p q) = true) :
    l.all (fun q => !strIsPrefixOf (p ++ s) q) = true := by
  rw [List.all_eq_true] at h ⊢
  intro q hq
  have h2 := h q hq
  cases hpq : strIsPrefixOf (p ++ s) q with
  | false => simp [hpq]
  | true =>
    have h3 := strIsPrefixOf_of_append p s q hpq
    simp [h3] at h2

/-! ### Claim theorems -/

/-- C1: for both fetch-capable stages with a local-artifact/remote-pair input
(`get_code` and `themes`), when no local artifact is supplied and the remote
pair is not usable (repository and branch not both supplied as truthy
strings), the stage raises the configuration error; the error result carries
no container state, so no external container operation has been applied to
the input state. -/
theorem fetch_stage_missing_inputs_error
    (c : Container) (deployment_name : String) (repo branch : Option String)
    (h : (truthyStr repo && truthyStr branch) = false) :
    get_code c none repo branch =
      .error "Must provide either source or both edx_platform_git_repo and edx_platform_git_branch" ∧
    themes c deployment_name none repo branch =
      .error "Must provide either theme_source or both theme_git_repo and theme_git_branch" := by
  constructor
  · simp [get_code, h]
  · have h2 : (!(truthyStr repo) || !(truthyStr branch)) = true := by
      rw [← Bool.not_and, h]
      rfl
    simp [themes, h2]

/-- C1 witness: both stages at a concrete input with neither source supplied. -/
theorem fetch_stage_missing_inputs_error_witness :
    get_code ⟨[]⟩ none none none =
      .error "Must provide either source or both edx_platform_git_repo and edx_platform_git_branch" ∧
    themes ⟨[]⟩ "mitx" none (some "") none =
      .error "Must provide either theme_source or both theme_git_repo and theme_git_branch" :=
  ⟨(fetch_stage_missing_inputs_error ⟨[]⟩ "mitx" none none rfl).1,
   (fetch_stage_missing_inputs_error ⟨[]⟩ "mitx" (some "") none rfl).2⟩

/-- C2: for both fetch-capable stages, supplying a local artifact alone makes
the stage succeed with exactly the documented mount: `get_code` mounts the
source at /openedx/edx-platform (followed only by the venv-creation exec) and
`themes` mounts the theme at /openedx/themes/ plus the deployment name; the
results do not depend on the remote repository/branch arguments even when
those are supplied, and the operations appended to the input state contain no
remote git-clone fetch. -/
theorem fetch_stage_local_artifact (c : Container) (s : Dir) (deployment_name : String)
    (repo branch : Option String) :
    get_code c (some s) repo branch =
      .ok ((c.withMountedDirectory "/openedx/edx-platform" s).withExec
        ["uv", "venv", "/openedx/venv"]) ∧
    themes c deployment_name (some s) repo branch =
      .ok (c.withMountedDirectory ("/openedx/themes/" ++ deployment_name) s) ∧
    (newOps c ((c.withMountedDirectory "/openedx/edx-platform" s).withExec
        ["uv", "venv", "/openedx/venv"])).all (fun op => !isGitClone op) = true ∧
    (newOps c (c.withMountedDirectory ("/openedx/themes/" ++ deployment_name) s)).all
      (fun op => !isGitClone op) = true := by
  refine ⟨rfl, rfl, ?_, ?_⟩
  · simp [newOps, Container.withMountedDirectory, Container.withExec, List.append_assoc,
      List.drop_left, isGitClone]
  · simp [newOps, Container.withMountedDirectory, List.drop_left, isGitClone]

/-- C3: the artifact-collection stage with `app_user_id = 0` raises the
configuration error for every input state and every choice of the other
arguments; the error result carries no container state, so no operation is
applied to the input state. -/
theorem collected_rejects_root (c : Container) (deployment_name : String) (dockerize_bin : Fil)
    (tutor_bin custom_settings : Dir) (include_locales : Bool) :
    collected c deployment_name dockerize_bin tutor_bin custom_settings 0 include_locales =
      .error "app user may not be root" := rfl

/-- C8: `publish_platform` with registry r.example, repository org/img, tag v1
and no credentials registers no registry credentials (the pushed state is the
input state unchanged) and returns exactly r.example/org/img:v1; in general
the returned reference is registry/repository:tag, no credentials are
registered when none are supplied, and when a truthy username and a password
are supplied the pushed state is the input state with credentials registered
for the registry. -/
theorem publish_platform_reference (c : Container) (registry repository tag : String)
    (username : Option String) (password : Option Secret) (u : String) (p : Secret) :
    publish_platform c "r.example" "org/img" "v1" none none = ("r.example/org/img:v1", c) ∧
    (publish_platform c registry repository tag username password).1 =
      registry ++ "/" ++ repository ++ ":" ++ tag ∧
    publish_platform c registry repository tag none none =
      (registry ++ "/" ++ repository ++ ":" ++ tag, c) ∧
    (u ≠ "" → publish_platform c registry repository tag (some u) (some p) =
      (registry ++ "/" ++ repository ++ ":" ++ tag, c.withRegistryAuth registry u p)) := by
  refine ⟨rfl, ?_, rfl, ?_⟩
  · cases username <;> cases password <;> simp [publish_platform, publish]
  · intro h
    simp [publish_platform, publish, h]

/-- C8 witness: concrete publications with and without credentials. -/
theorem publish_platform_reference_witness :
    publish_platform ⟨[]⟩ "r.example" "org/img" "v1" none none = ("r.example/org/img:v1", ⟨[]⟩) ∧
    publish_platform ⟨[]⟩ "ghcr.io" "mitodl/openedx-platform" "latest" (some "bot") (some ⟨7⟩) =
      ("ghcr.io/mitodl/openedx-platform:latest",
        Container.withRegistryAuth ⟨[]⟩ "ghcr.io" "bot" ⟨7⟩) :=
  ⟨(publish_platform_reference ⟨[]⟩ "r.example" "org/img" "v1" none none "u" ⟨0⟩).1,
   (publish_platform_reference ⟨[]⟩ "ghcr.io" "mitodl/openedx-platform" "latest" none none
      "bot" ⟨7⟩).2.2.2 (by decide)⟩

set_option maxRecDepth 20000 in
/-- C4: in the translation-fetch stage, exactly the documented best-effort
subset of commands is wrapped so that a non-zero exit is swallowed (the lms
pull and compile plugin/xblock translation commands, the two atlas pull
commands and the cms xblock compile command), while the remaining commands of
the stage (lms compilemessages, lms compilejsi18n, cms compilejsi18n) are
fatal on failure; and under any engine whose failures are confined to
best-effort commands, every state produced by the full pipeline runs to
completion, so the pipeline reaches the finalize stage and yields a terminal
state. -/
theorem fetch_translations_failure_policy :
    (∀ c : Container,
      ((newOps c (fetch_translations c "mitodl/mitxonline-translations" "main")).filterMap
          execArgs).filter suppressedExec =
        [["sh", "-c",
          "python manage.py lms pull_plugin_translations --repository mitodl/mitxonline-translations --revision main || true"],
         ["sh", "-c", "python manage.py lms compile_plugin_translations || true"],
         ["sh", "-c",
          "python manage.py lms pull_xblock_translations --repository mitodl/mitxonline-translations --revision main || true"],
         ["sh", "-c", "python manage.py lms compile_xblock_translations || true"],
         ["sh", "-c",
          "atlas pull --repository mitodl/mitxonline-translations --revision main translations/edx-platform/conf/locale:conf/locale || true"],
         ["sh", "-c", "python manage.py cms compile_xblock_translations || true"],
         ["sh", "-c",
          "atlas pull --repository mitodl/mitxonline-translations --revision main translations/studio-frontend/src/i18n/messages:conf/plugins-locale/studio-frontend || true"]] ∧
      ((newOps c (fetch_translations c "mitodl/mitxonline-translations" "main")).filterMap
          execArgs).filter (fun a => !suppressedExec a) =
        [["python", "manage.py", "lms", "compilemessages"],
         ["python", "manage.py", "lms", "compilejsi18n"],
         ["python", "manage.py", "cms", "compilejsi18n"]]) ∧
    (∀ (c : Container) (r b : String),
      runsOk (fun args => args == ["python", "manage.py", "lms", "compilemessages"])
        (fetch_translations c r b) = false) ∧
    (∀ engineFails : List String → Bool,
      (∀ args, engineFails args = true → suppressedExec args = true) →
      ∀ (dn rn : String) (ppl ppo cs : Dir) (src : Option Dir) (pr pb : String)
        (ts : Option Dir) (trp tbr pv : Option String) (nv lv trr trb : String)
        (il : Bool) (res : Container),
        build_platform dn rn ppl ppo cs src pr pb ts trp tbr pv nv lv trr trb il = .ok res →
        runsOk engineFails res = true) := by
  refine ⟨?_, ?_, ?_⟩
  · intro c
    constructor <;>
      · simp only [fetch_translations, Container.withExec, Container.withEnvVariable,
          Container.withWorkdir, List.append_assoc, List.singleton_append, List.cons_append,
          List.nil_append]
        rw [newOps_mk]
        decide
  · intro c r b
    unfold runsOk
    rw [List.all_eq_false]
    refine ⟨Op.withExec ["python", "manage.py", "lms", "compilemessages"], ?_, by decide⟩
    simp [fetch_translations, Container.withExec, Container.withEnvVariable,
      Container.withWorkdir, List.append_assoc]
  · intro engineFails hf dn rn ppl ppo cs src pr pb ts trp tbr pv nv lv trr trb il res _
    rw [runsOk, List.all_eq_true]
    intro op _
    cases op with
    | withExec args =>
      by_cases hfa : engineFails args = true
      · simp [opRuns, hf args hfa]
      · simp only [Bool.not_eq_true] at hfa
        simp [opRuns, hfa]
    | fromImage ref => rfl
    | withEnvVariable n v => rfl
    | withFile p f => rfl
    | withMountedFile p f => rfl
    | withMountedDirectory p d => rfl
    | withDirectory p d => rfl
    | withWorkdir p => rfl
    | withUser u => rfl
    | withRegistryAuth a u s => rfl

/-- C4 witness: under an engine that fails exactly the lms
pull-plugin-translations best-effort command, a concrete full-pipeline run
still yields a terminal state whose whole trace executes. -/
theorem fetch_translations_failure_policy_witness :
    runsOk
      (fun args => args == ["sh", "-c",
        "python manage.py lms pull_plugin_translations --repository mitodl/mitxonline-translations --revision main || true"])
      ((build_platform "mitx" "sumac" (Dir.input 0) (Dir.input 1) (Dir.input 2)
          (some (Dir.input 3)) "https://github.com/openedx/edx-platform" "master" none none none
          none "20.18.0" "master" "mitodl/mitxonline-translations" "main" true).toOption.getD
        ⟨[]⟩) = true :=
  fetch_translations_failure_policy.2.2 _
    (fun args h => by
      have heq := eq_of_beq h
      subst heq
      decide)
    "mitx" "sumac" (Dir.input 0) (Dir.input 1) (Dir.input 2) (some (Dir.input 3))
    "https://github.com/openedx/edx-platform" "master" none none none none "20.18.0" "master"
    "mitodl/mitxonline-translations" "main" true _ rfl

/-- C5: the privilege transition is one-way: each pipeline stage that runs
after the artifact-collection stage (translation-fetch, asset-build,
finalize) appends no set-user operation at all to its input state, so in
particular none of them switches back to root; consequently every state
produced by a successful full-pipeline run keeps the unprivileged active
user installed by the collection stage, namely "1000". -/
theorem privilege_transition_one_way (c : Container) (r b dn rn : String) :
    (newOps c (fetch_translations c r b)).all (fun op => !(isSetUser op)) = true ∧
    (newOps c (build_static_assets c dn)).all (fun op => !(isSetUser op)) = true ∧
    (newOps c (docker_image c dn rn)).all (fun op => !(isSetUser op)) = true ∧
    (∀ (dn2 rn2 : String) (ppl ppo cs : Dir) (src : Option Dir) (pr pb : String)
      (ts : Option Dir) (trp tbr pv : Option String) (nv lv trr trb : String)
      (il : Bool) (res : Container),
      build_platform dn2 rn2 ppl ppo cs src pr pb ts trp tbr pv nv lv trr trb il = .ok res →
      res.activeUser = some "1000") := by
  refine ⟨?_, ?_, ?_, ?_⟩
  · simp only [fetch_translations, Container.withExec, Container.withEnvVariable,
      Container.withWorkdir, List.append_assoc, List.singleton_append, List.cons_append,
      List.nil_append]
    rw [newOps_mk]
    rfl
  · simp only [build_static_assets, Container.withExec, Container.withEnvVariable,
      List.append_assoc, List.singleton_append, List.cons_append, List.nil_append]
    rw [newOps_mk]
    rfl
  · simp only [docker_image, Container.withExec, Container.withEnvVariable,
      List.append_assoc, List.singleton_append, List.cons_append, List.nil_append]
    rw [newOps_mk]
    rfl
  · intro dn2 rn2 ppl ppo cs src pr pb ts trp tbr pv nv lv trr trb il res h
    exact build_platform_ok_activeUser dn2 rn2 ppl ppo cs src pr pb ts trp tbr pv nv lv trr
      trb il res h

/-- C5 witness: a concrete successful full-pipeline run ends with active
user "1000". -/
theorem privilege_transition_one_way_witness :
    ((build_platform "mitx" "sumac" (Dir.input 0) (Dir.input 1) (Dir.input 2)
        (some (Dir.input 3)) "https://github.com/openedx/edx-platform" "master" none none none
        none "20.18.0" "master" "mitodl/mitxonline-translations" "main" true).toOption.getD
      ⟨[]⟩).activeUser = some "1000" :=
  (privilege_transition_one_way ⟨[]⟩ "r" "b" "mitx" "sumac").2.2.2 "mitx" "sumac" (Dir.input 0)
    (Dir.input 1) (Dir.input 2) (some (Dir.input 3)) "https://github.com/openedx/edx-platform"
    "master" none none none none "20.18.0" "master" "mitodl/mitxonline-translations" "main"
    true _ rfl

/-- C9: the full pipeline exposes no unprivileged-user-id input and always
invokes the artifact-collection stage with the default id 1000: no
invocation of the full pipeline can produce the id-zero configuration
error, and every successful invocation produces a final state whose active
user is "1000". -/
theorem build_platform_default_app_user (dn rn : String) (ppl ppo cs : Dir) (src : Option Dir)
    (pr pb : String) (ts : Option Dir) (trp tbr pv : Option String) (nv lv trr trb : String)
    (il : Bool) (res : Container) :
    build_platform dn rn ppl ppo cs src pr pb ts trp tbr pv nv lv trr trb il ≠
      .error "app user may not be root" ∧
    (build_platform dn rn ppl ppo cs src pr pb ts trp tbr pv nv lv trr trb il = .ok res →
      res.activeUser = some "1000") :=
  ⟨build_platform_ne_root_error dn rn ppl ppo cs src pr pb ts trp tbr pv nv lv trr trb il,
   build_platform_ok_activeUser dn rn ppl ppo cs src pr pb ts trp tbr pv nv lv trr trb il res⟩

/-- C9 witness: at a concrete invocation, the pipeline does not raise the
id-zero configuration error and its final state has active user "1000". -/
theorem build_platform_default_app_user_witness :
    build_platform "mitxonline" "master" (Dir.input 0) (Dir.input 1) (Dir.input 2) none
        "https://github.com/openedx/edx-platform" "master" none none none none "20.18.0"
        "master" "mitodl/mitxonline-translations" "main" false ≠
      .error "app user may not be root" ∧
    ((build_platform "mitxonline" "master" (Dir.input 0) (Dir.input 1) (Dir.input 2) none
        "https://github.com/openedx/edx-platform" "master" none none none none "20.18.0"
        "master" "mitodl/mitxonline-translations" "main" false).toOption.getD
      ⟨[]⟩).activeUser = some "1000" :=
  ⟨(build_platform_default_app_user "mitxonline" "master" (Dir.input 0) (Dir.input 1)
      (Dir.input 2) none "https://github.com/openedx/edx-platform" "master" none none none none
      "20.18.0" "master" "mitodl/mitxonline-translations" "main" false ⟨[]⟩).1,
   (build_platform_default_app_user "mitxonline" "master" (Dir.input 0) (Dir.input 1)
      (Dir.input 2) none "https://github.com/openedx/edx-platform" "master" none none none none
      "20.18.0" "master" "mitodl/mitxonline-translations" "main" false _).2 rfl⟩

/-- C10: when no theme source directory is given, the theme repository is a
truthy string and the theme branch is absent, the full pipeline does not
skip the theme stage: the theme stage is invoked, raises its configuration
error and thereby aborts the pipeline, even though the theme stage is
optional.  The source-fetch hypothesis only rules out an earlier abort of
the pipeline in `get_code`. -/
theorem theme_repo_without_branch_aborts (dn rn : String) (ppl ppo cs : Dir)
    (src : Option Dir) (pr pb : String) (r : String) (pv : Option String)
    (nv lv trr trb : String) (il : Bool)
    (hr : r ≠ "") (hsrc : src.isSome = true ∨ (pr ≠ "" ∧ pb ≠ "")) :
    build_platform dn rn ppl ppo cs src pr pb none (some r) none pv nv lv trr trb il =
      .error "Must provide either theme_source or both theme_git_repo and theme_git_branch" := by
  rw [build_platform_unfold]
  have hts : ((none : Option Dir).isSome || truthyStr (some r)) = true := by
    simp [truthyStr, hr]
  have hth : ∀ c : Container,
      themes c dn none (some r) none =
        .error "Must provide either theme_source or both theme_git_repo and theme_git_branch" := by
    intro c
    simp [themes, truthyStr]
  cases hs : src with
  | some s =>
    rw [show get_code
        (if il then locales (apt_base (resolvePythonVersion pv rn)) lv
         else apt_base (resolvePythonVersion pv rn)) (some s) (some pr) (some pb) =
      .ok ((((if il then locales (apt_base (resolvePythonVersion pv rn)) lv
         else apt_base (resolvePythonVersion pv rn))).withMountedDirectory
          "/openedx/edx-platform" s).withExec ["uv", "venv", "/openedx/venv"]) from rfl, okBind]
    rw [if_pos hts, hth, errBind]
  | none =>
    rcases hsrc with hbad | ⟨h1, h2⟩
    · rw [hs] at hbad
      exact absurd hbad (by simp)
    · have hcond : (truthyStr (some pr) && truthyStr (some pb)) = true := by
        simp [truthyStr, h1, h2]
      rw [show get_code
          (if il then locales (apt_base (resolvePythonVersion pv rn)) lv
           else apt_base (resolvePythonVersion pv rn)) none (some pr) (some pb) =
        if truthyStr (some pr) && truthyStr (some pb) then
          .ok (((if il then locales (apt_base (resolvePythonVersion pv rn)) lv
             else apt_base (resolvePythonVersion pv rn)).withExec
              ["git", "clone", "--depth", "1", "--branch", (some pb).getD "", (some pr).getD "",
               "/openedx/edx-platform"]).withExec ["uv", "venv", "/openedx/venv"])
        else
          .error "Must provide either source or both edx_platform_git_repo and edx_platform_git_branch"
        from rfl]
      rw [if_pos hcond, okBind, if_pos hts, hth, errBind]

/-- C10 witness: concrete invocation with a theme repository but no theme
branch aborts with the theme configuration error. -/
theorem theme_repo_without_branch_aborts_witness :
    build_platform "mitx" "sumac" (Dir.input 0) (Dir.input 1) (Dir.input 2) (some (Dir.input 3))
        "https://github.com/openedx/edx-platform" "master" none
        (some "https://github.com/mitodl/mitx-theme") none none "20.18.0" "master"
        "mitodl/mitxonline-translations" "main" true =
      .error "Must provide either theme_source or both theme_git_repo and theme_git_branch" :=
  theme_repo_without_branch_aborts "mitx" "sumac" (Dir.input 0) (Dir.input 1) (Dir.input 2)
    (some (Dir.input 3)) "https://github.com/openedx/edx-platform" "master"
    "https://github.com/mitodl/mitx-theme" none "20.18.0" "master"
    "mitodl/mitxonline-translations" "main" true (by decide) (Or.inl rfl)

/-- C6: with the locale switch off and neither theme source nor theme
repository supplied, the full pipeline skips the locale and theme stages
entirely while still invoking every downstream stage: the source-fetch stage
consumes the base-image stage output directly (no locale stage operations),
the artifact-collection stage consumes the dependency-install stage output
directly (no theme stage operations), the translation-fetch, asset-build and
finalize stages all run, and the final state creates nothing at or under
/openedx/locale or at or under /openedx/themes/ plus the deployment name.
The source-fetch hypothesis only rules out an abort in `get_code`. -/
theorem optional_stages_skipped (dn rn : String) (ppl ppo cs : Dir) (src : Option Dir)
    (pr pb : String) (pv : Option String) (nv lv trr trb : String)
    (hsrc : src.isSome = true ∨ (pr ≠ "" ∧ pb ≠ "")) :
    ∃ c1 c2 : Container,
      get_code (apt_base (resolvePythonVersion pv rn)) src (some pr) (some pb) = .ok c1 ∧
      collected (install_deps c1 dn rn ppl ppo nv) dn dockerize (tutor_utils "v19.0.0") cs
        1000 false = .ok c2 ∧
      build_platform dn rn ppl ppo cs src pr pb none none none pv nv lv trr trb false =
        .ok (docker_image (build_static_assets (fetch_translations c2 trr trb) dn) dn rn) ∧
      lacksPathUnder (docker_image (build_static_assets (fetch_translations c2 trr trb) dn)
        dn rn) "/openedx/locale" = true ∧
      lacksPathUnder (docker_image (build_static_assets (fetch_translations c2 trr trb) dn)
        dn rn) ("/openedx/themes/" ++ dn) = true := by
  cases hs : src with
  | some s =>
    refine ⟨_, _, rfl, rfl, rfl, ?_, ?_⟩
    · cases hdn : dn == "mitxonline" <;>
        · simp only [lacksPathUnder, docker_image, build_static_assets, fetch_translations,
            install_deps, apt_base, hdn, Bool.false_eq_true, if_false, if_true,
            createdPaths_withExec, createdPaths_withEnvVariable, createdPaths_withWorkdir,
            createdPaths_withUser, createdPaths_withFile, createdPaths_withMountedFile,
            createdPaths_withMountedDirectory, createdPaths_withDirectory,
            createdPaths_fromImage, ecp_apt, ecp_apt_get, ecp_sh, ecp_uv, ecp_pip, ecp_npm,
            ecp_python, ecp_chmod, ecp_chown, ecp_useradd, ecp_cp, ecp_rm, ecp_rdfind,
            ecp_git_config, ecp_git_clone, ecp_mkdir_p, ecp_mkdir_ssh, getLast?_cons_cons,
            getLast?_singleton, Option.toList_some, List.append_assoc, List.cons_append,
            List.nil_append, List.append_nil]
          decide
    · rw [lacksPathUnder]
      apply all_not_prefix_append
      rw [← lacksPathUnder]
      cases hdn : dn == "mitxonline" <;>
        · simp only [lacksPathUnder, docker_image, build_static_assets, fetch_translations,
            install_deps, apt_base, hdn, Bool.false_eq_true, if_false, if_true,
            createdPaths_withExec, createdPaths_withEnvVariable, createdPaths_withWorkdir,
            createdPaths_withUser, createdPaths_withFile, createdPaths_withMountedFile,
            createdPaths_withMountedDirectory, createdPaths_withDirectory,
            createdPaths_fromImage, ecp_apt, ecp_apt_get, ecp_sh, ecp_uv, ecp_pip, ecp_npm,
            ecp_python, ecp_chmod, ecp_chown, ecp_useradd, ecp_cp, ecp_rm, ecp_rdfind,
            ecp_git_config, ecp_git_clone, ecp_mkdir_p, ecp_mkdir_ssh, getLast?_cons_cons,
            getLast?_singleton, Option.toList_some, List.append_assoc, List.cons_append,
            List.nil_append, List.append_nil]
          decide
  | none =>
    rcases hsrc with hbad | ⟨h1, h2⟩
    · rw [hs] at hbad
      exact absurd hbad (by simp)
    · have hcond : (truthyStr (some pr) && truthyStr (some pb)) = true := by
        simp [truthyStr, h1, h2]
      have hg : get_code
          (if (false : Bool) then locales (apt_base (resolvePythonVersion pv rn)) lv
           else apt_base (resolvePythonVersion pv rn)) none (some pr) (some pb) =
          .ok (((apt_base (resolvePythonVersion pv rn)).withExec
            ["git", "clone", "--depth", "1", "--branch", (some pb).getD "", (some pr).getD "",
             "/openedx/edx-platform"]).withExec ["uv", "venv", "/openedx/venv"]) := by
        simp only [get_code, Bool.false_eq_true, if_false]
        rw [if_pos hcond]
      refine ⟨_, _, hg, rfl, ?_, ?_, ?_⟩
      · rw [build_platform_unfold, hg, okBind]
        rfl
      · cases hdn : dn == "mitxonline" <;>
          · simp only [lacksPathUnder, docker_image, build_static_assets, fetch_translations,
            install_deps, apt_base, hdn, Bool.false_eq_true, if_false, if_true,
            createdPaths_withExec, createdPaths_withEnvVariable, createdPaths_withWorkdir,
            createdPaths_withUser, createdPaths_withFile, createdPaths_withMountedFile,
            createdPaths_withMountedDirectory, createdPaths_withDirectory,
            createdPaths_fromImage, ecp_apt, ecp_apt_get, ecp_sh, ecp_uv, ecp_pip, ecp_npm,
            ecp_python, ecp_chmod, ecp_chown, ecp_useradd, ecp_cp, ecp_rm, ecp_rdfind,
            ecp_git_config, ecp_git_clone, ecp_mkdir_p, ecp_mkdir_ssh, getLast?_cons_cons,
            getLast?_singleton, Option.toList_some, List.append_assoc, List.cons_append,
            List.nil_append, List.append_nil]
            decide
      · rw [lacksPathUnder]
        apply all_not_prefix_append
        rw [← lacksPathUnder]
        cases hdn : dn == "mitxonline" <;>
          · simp only [lacksPathUnder, docker_image, build_static_assets, fetch_translations,
            install_deps, apt_base, hdn, Bool.false_eq_true, if_false, if_true,
            createdPaths_withExec, createdPaths_withEnvVariable, createdPaths_withWorkdir,
            createdPaths_withUser, createdPaths_withFile, createdPaths_withMountedFile,
            createdPaths_withMountedDirectory, createdPaths_withDirectory,
            createdPaths_fromImage, ecp_apt, ecp_apt_get, ecp_sh, ecp_uv, ecp_pip, ecp_npm,
            ecp_python, ecp_chmod, ecp_chown, ecp_useradd, ecp_cp, ecp_rm, ecp_rdfind,
            ecp_git_config, ecp_git_clone, ecp_mkdir_p, ecp_mkdir_ssh, getLast?_cons_cons,
            getLast?_singleton, Option.toList_some, List.append_assoc, List.cons_append,
            List.nil_append, List.append_nil]
            decide

/-- C6 witness: concrete invocation with locales off and no theme inputs. -/
theorem optional_stages_skipped_witness :
    ∃ c1 c2 : Container,
      get_code (apt_base (resolvePythonVersion none "sumac")) (some (Dir.input 3))
        (some "https://github.com/openedx/edx-platform") (some "master") = .ok c1 ∧
      collected (install_deps c1 "mitx" "sumac" (Dir.input 0) (Dir.input 1) "20.18.0") "mitx"
        dockerize (tutor_utils "v19.0.0") (Dir.input 2) 1000 false = .ok c2 ∧
      build_platform "mitx" "sumac" (Dir.input 0) (Dir.input 1) (Dir.input 2)
          (some (Dir.input 3)) "https://github.com/openedx/edx-platform" "master" none none
          none none "20.18.0" "master" "mitodl/mitxonline-translations" "main" false =
        .ok (docker_image (build_static_assets
          (fetch_translations c2 "mitodl/mitxonline-translations" "main") "mitx")
          "mitx" "sumac") ∧
      lacksPathUnder (docker_image (build_static_assets
          (fetch_translations c2 "mitodl/mitxonline-translations" "main") "mitx")
          "mitx" "sumac") "/openedx/locale" = true ∧
      lacksPathUnder (docker_image (build_static_assets
          (fetch_translations c2 "mitodl/mitxonline-translations" "main") "mitx")
          "mitx" "sumac") ("/openedx/themes/" ++ "mitx") = true :=
  optional_stages_skipped "mitx" "sumac" (Dir.input 0) (Dir.input 1) (Dir.input 2)
    (some (Dir.input 3)) "https://github.com/openedx/edx-platform" "master" none "20.18.0"
    "master" "mitodl/mitxonline-translations" "main" (Or.inl rfl)

set_option maxHeartbeats 2000000 in
/-- C7: the full pipeline equals the spec-ordered stage composition: the
stages run in the fixed order base-image, locale-fetch (optional),
source-fetch, dependency-install, theme-fetch (optional), utility-fetch,
artifact-collection, translation-fetch, asset-build, finalize, each stage
consuming the previous stage output state and replacing the current state,
for every choice of inputs. -/
theorem pipeline_stage_order (dn rn : String) (ppl ppo cs : Dir) (src : Option Dir)
    (pr pb : String) (ts : Option Dir) (trp tbr pv : Option String) (nv lv trr trb : String)
    (il : Bool) :
    build_platform dn rn ppl ppo cs src pr pb ts trp tbr pv nv lv trr trb il =
      spec_pipeline dn rn ppl ppo cs src pr pb ts trp tbr pv nv lv trr trb il := by
  rw [build_platform_unfold]
  unfold spec_pipeline runStages
  simp only [List.foldl, okBind]
  generalize get_code
      (if il then locales (apt_base (resolvePythonVersion pv rn)) lv
       else apt_base (resolvePythonVersion pv rn)) src (some pr) (some pb) = g
  cases g with
  | error e => simp only [errBind]
  | ok c1 =>
    simp only [okBind]
    by_cases hts : (ts.isSome || truthyStr trp) = true
    · rw [if_pos hts]
      generalize themes (install_deps c1 dn rn ppl ppo nv) dn ts trp tbr = th
      cases th with
      | error e => simp only [errBind]
      | ok c2 =>
        simp only [okBind]
        generalize collected c2 dn dockerize (tutor_utils "v19.0.0") cs 1000 il = col
        cases col with
        | error e => simp only [errBind]
        | ok c3 => simp only [okBind]
    · rw [if_neg hts]
      simp only [okBind]
      generalize collected (install_deps c1 dn rn ppl ppo nv) dn dockerize
        (tutor_utils "v19.0.0") cs 1000 il = col
      cases col with
      | error e => simp only [errBind]
      | ok c3 => simp only [okBind]

end Lehrer
